import Mathlib

/-!
# Verification of the DenoTest blog service

Shallow embedding of the two Deno HTTP servers of this repository:

* `src/blog-api.js` — an in-memory blog CRUD API (router, post store,
  handlers, CORS headers), embedded as `handleBlogRequest`;
* `src/main.js` — a minimal demo server (`/`, `/time`, `/data`),
  embedded as `handleMainRequest`.

JavaScript values reaching the handlers through JSON bodies are embedded
as `JsValue`; a request body that fails to parse as JSON is `none`
(`parseJsonBody` then yields JavaScript `null`, i.e. `JsValue.vNull`,
exactly as the `try/catch` in the source does).  Time
(`new Date().toISOString()`) and fresh identifiers (`crypto.randomUUID()`)
are environment inputs, so the handler takes them as the parameters
`now` and `freshId`.
-/

/-- A JavaScript value as produced by `JSON.parse` (JSON objects have
unique keys, so first-match field lookup is adequate). -/
inductive JsValue where
  | vNull
  | vBool (b : Bool)
  | vNum (n : Int)
  | vStr (s : String)
  | vArr (elems : List JsValue)
  | vObj (fields : List (String × JsValue))
deriving Repr

/-- JavaScript truthiness of a value: `null`, `false`, `0` and `""` are
falsy; objects and arrays are always truthy. -/
def JsValue.truthy : JsValue → Bool
  | vNull => false
  | vBool b => b
  | vNum n => n != 0
  | vStr s => s != ""
  | vArr _ => true
  | vObj _ => true

/-- First-match lookup in a JS object field list. -/
def lookupField : List (String × JsValue) → String → Option JsValue
  | [], _ => none
  | (k, v) :: rest, key => if key = k then some v else lookupField rest key

/-- JavaScript property access `v.key`: `none` models `undefined`
(missing field, or property access on a non-object). -/
def JsValue.getField : JsValue → String → Option JsValue
  | vObj fields, key => lookupField fields key
  | _, _ => none

/-- Truthiness of a possibly-`undefined` value (`undefined` is falsy). -/
def optTruthy : Option JsValue → Bool
  | none => false
  | some v => v.truthy

/-- JavaScript `x || d` where `x` is a possibly-`undefined` field. -/
def jsOr (v : Option JsValue) (d : JsValue) : JsValue :=
  match v with
  | some w => if w.truthy then w else d
  | none => d

/-- A blog post record.  `title`/`content`/`author` keep the JS value the
create handler stored (the source never coerces them to strings);
`updatedAt` is absent until the first update. -/
structure Post where
  id : String
  title : JsValue
  content : JsValue
  author : JsValue
  createdAt : String
  updatedAt : Option String
deriving Repr

/-- First seed post of `src/blog-api.js` (lines 6-12). -/
def seedPost1 : Post :=
  { id := "1",
    title := .vStr "Introduction to Deno Deploy",
    content := .vStr "Deno Deploy is a distributed hosting service for Deno applications...",
    author := .vStr "Deno User",
    createdAt := "2025-05-01T10:00:00Z",
    updatedAt := none }

/-- Second seed post of `src/blog-api.js` (lines 13-19). -/
def seedPost2 : Post :=
  { id := "2",
    title := .vStr "Working with Deno KV",
    content := .vStr "Deno KV provides a simple key-value storage solution...",
    author := .vStr "Deno Fan",
    createdAt := "2025-05-02T14:30:00Z",
    updatedAt := none }

/-- The initial in-memory database `posts` of `src/blog-api.js`. -/
def seedPosts : List Post := [seedPost1, seedPost2]

/-- `const jsonHeaders = { "content-type": "application/json" }`. -/
def jsonHeaders : List (String × String) := [("content-type", "application/json")]

/-- The header object built at the top of the `blog-api.js` handler:
`jsonHeaders` spread together with the three CORS headers. -/
def corsHeaders : List (String × String) :=
  jsonHeaders ++
    [ ("Access-Control-Allow-Origin", "*"),
      ("Access-Control-Allow-Methods", "GET, POST, PUT, DELETE, OPTIONS"),
      ("Access-Control-Allow-Headers", "Content-Type") ]

/-- HTTP method of a request (the methods the routers inspect). -/
inductive Method where
  | GET | POST | PUT | DELETE | OPTIONS
deriving Repr, DecidableEq

/-- An incoming request: method, URL path, and the outcome of JSON-parsing
its body (`none` = the body does not parse as JSON). -/
structure Request where
  method : Method
  path : String
  body : Option JsValue
deriving Repr

/-- Response bodies the two servers produce, kept structured rather than
serialized.  `homePage` stands for the static HTML document of the home
route of `blog-api.js` (its text carries no logic). -/
inductive RespBody where
  | postsBody (ps : List Post)
  | postBody (p : Post)
  | errorBody (msg : String)
  | messagePost (message : String) (p : Post)
  | homePage
  | textBody (s : String)
  | mainData (message timestamp environment : String)
deriving Repr

/-- An HTTP response: status, optional body, explicitly set headers. -/
structure HttpResponse where
  status : Nat
  body : Option RespBody
  headers : List (String × String)
deriving Repr

/-- `parseJsonBody`: `try { return await req.json() } catch { return null }` —
a parse failure becomes JavaScript `null`. -/
def parseJsonBody : Option JsValue → JsValue
  | none => JsValue.vNull
  | some v => v

/-- A character matched by the regex class `[\w-]` (no unicode flag, so
`\w` is `[A-Za-z0-9_]`). -/
def isIdChar (c : Char) : Bool :=
  c.isAlpha || c.isDigit || c = '_' || c = '-'

/-- `path.match(/^\/api\/posts\/[\w-]+$/)`: the path is
`/api/posts/` followed by one or more `[\w-]` characters. -/
def matchesPostIdPath (path : String) : Bool :=
  match path.toList with
  | '/' :: 'a' :: 'p' :: 'i' :: '/' :: 'p' :: 'o' :: 's' :: 't' :: 's' :: '/' :: rest =>
      !rest.isEmpty && rest.all isIdChar
  | _ => false

/-- `String.prototype.split("/")` on the character list of the path. -/
def splitSlash (cs : List Char) : List (List Char) :=
  match cs with
  | [] => [[]]
  | c :: rest =>
    let r := splitSlash rest
    if c = '/' then [] :: r
    else
      match r with
      | [] => [[c]]
      | seg :: segs => (c :: seg) :: segs

/-- `path.split("/").pop()`: the last segment of the path. -/
def extractId (path : String) : String :=
  String.mk ((splitSlash path.toList).getLastD [])

/-- `posts.findIndex(p => p.id === id)` together with the element found
there (the source always reads `posts[postIndex]` right after a
successful `findIndex`). -/
def findIndexById (id : String) : List Post → Option (Nat × Post)
  | [] => none
  | p :: ps =>
      if p.id = id then some (0, p)
      else (findIndexById id ps).map (fun ip => (ip.1 + 1, ip.2))

/-- The post object the create handler builds (`blog-api.js` lines 88-94):
generated id, fields from the body, `author` defaulted to `"Anonymous"`
when falsy, `createdAt` set to the current time. -/
def createPost (now freshId : String) (body : JsValue) : Post :=
  { id := freshId,
    title := (body.getField "title").getD .vNull,
    content := (body.getField "content").getD .vNull,
    author := jsOr (body.getField "author") (.vStr "Anonymous"),
    createdAt := now,
    updatedAt := none }

/-- The request handler of `src/blog-api.js` (the `Deno.serve` callback),
passed the current time `now` and the freshly generated UUID `freshId` as
environment inputs.  Returns the response together with the post store
after the request. -/
def handleBlogRequest (now freshId : String) (posts : List Post) (req : Request) :
    HttpResponse × List Post :=
  if req.method = .OPTIONS then
    (⟨200, none, corsHeaders⟩, posts)
  else if req.path = "/api/posts" ∧ req.method = .GET then
    (⟨200, some (.postsBody posts), corsHeaders⟩, posts)
  else if matchesPostIdPath req.path ∧ req.method = .GET then
    let id := extractId req.path
    match posts.find? (fun p => p.id = id) with
    | none => (⟨404, some (.errorBody "Post not found"), corsHeaders⟩, posts)
    | some p => (⟨200, some (.postBody p), corsHeaders⟩, posts)
  else if req.path = "/api/posts" ∧ req.method = .POST then
    let body := parseJsonBody req.body
    if !body.truthy || !optTruthy (body.getField "title")
        || !optTruthy (body.getField "content") then
      (⟨400, some (.errorBody "Title and content are required"), corsHeaders⟩, posts)
    else
      let newPost := createPost now freshId body
      (⟨201, some (.postBody newPost), corsHeaders⟩, posts ++ [newPost])
  else if matchesPostIdPath req.path ∧ req.method = .PUT then
    let id := extractId req.path
    match findIndexById id posts with
    | none => (⟨404, some (.errorBody "Post not found"), corsHeaders⟩, posts)
    | some ip =>
      let body := parseJsonBody req.body
      if !body.truthy then
        (⟨400, some (.errorBody "Invalid request body"), corsHeaders⟩, posts)
      else
        let updatedPost : Post :=
          { ip.2 with
            title := jsOr (body.getField "title") ip.2.title,
            content := jsOr (body.getField "content") ip.2.content,
            author := jsOr (body.getField "author") ip.2.author,
            updatedAt := some now }
        (⟨200, some (.postBody updatedPost), corsHeaders⟩, posts.set ip.1 updatedPost)
  else if matchesPostIdPath req.path ∧ req.method = .DELETE then
    let id := extractId req.path
    match findIndexById id posts with
    | none => (⟨404, some (.errorBody "Post not found"), corsHeaders⟩, posts)
    | some ip =>
      (⟨200, some (.messagePost "Post deleted successfully" ip.2), corsHeaders⟩,
        posts.eraseIdx ip.1)
  else if req.path = "/" then
    (⟨200, some .homePage, [("content-type", "text/html")]⟩, posts)
  else
    (⟨404, some (.errorBody "Not Found"), corsHeaders⟩, posts)

/-- The request handler of `src/main.js`: the router inspects only the
path.  `timeStr` models `new Date().toLocaleString()`, `tsStr` the
serialized `new Date()` timestamp, `deploymentId` the value of
`Deno.env.get("DENO_DEPLOYMENT_ID")`. -/
def handleMainRequest (timeStr tsStr : String) (deploymentId : Option String)
    (path : String) : HttpResponse :=
  if path = "/" then
    ⟨200, some (.textBody "Welcome to my Deno Deploy API!"),
      [("content-type", "text/plain")]⟩
  else if path = "/time" then
    ⟨200, some (.textBody ("Current server time: " ++ timeStr)),
      [("content-type", "text/plain")]⟩
  else if path = "/data" then
    ⟨200,
      some (.mainData "This is JSON data from Deno Deploy" tsStr
        (if deploymentId.isSome then "production" else "development")),
      [("content-type", "application/json")]⟩
  else
    ⟨404, some (.textBody "Not Found"), []⟩

/-- Runs a sequence of create requests against a store: each list element
supplies the current time, the generated UUID and the parsed body of one
`POST /api/posts` request. -/
def runCreates (store : List Post) : List (String × String × JsValue) → List Post
  | [] => store
  | r :: rest =>
      runCreates
        (handleBlogRequest r.1 r.2.1 store ⟨.POST, "/api/posts", some r.2.2⟩).2 rest

/-! ## Helper lemmas -/

/-- Only objects have fields, and objects are truthy. -/
theorem truthy_of_getField_some {b : JsValue} {k : String} {v : JsValue}
    (h : b.getField k = some v) : b.truthy = true := by
  cases b <;> simp [JsValue.getField, JsValue.truthy] at h ⊢

/-- A successful find returns a post carrying the looked-up id. -/
theorem findIndexById_id_eq {id : String} {l : List Post} {i : Nat} {p : Post}
    (h : findIndexById id l = some (i, p)) : p.id = id := by
  induction l generalizing i with
  | nil => simp [findIndexById] at h
  | cons q rest ih =>
    by_cases hq : q.id = id
    · simp only [findIndexById, if_pos hq, Option.some.injEq, Prod.mk.injEq] at h
      rw [← h.2]; exact hq
    · simp only [findIndexById, if_neg hq] at h
      cases hfi : findIndexById id rest with
      | none => rw [hfi] at h; simp at h
      | some ip =>
        obtain ⟨j, p2⟩ := ip
        rw [hfi] at h
        simp only [Option.map_some', Option.some.injEq, Prod.mk.injEq] at h
        obtain ⟨h1, h2⟩ := h
        subst h2
        exact ih hfi

/-- If no element of the list carries the id, `find?` misses. -/
theorem find?_eq_none_of_no_id {id : String} {l : List Post}
    (h : ∀ q ∈ l, q.id ≠ id) : l.find? (fun p => p.id = id) = none := by
  rw [List.find?_eq_none]
  intro x hx
  simp [h x hx]

/-- If no element of the list carries the id, `findIndexById` misses. -/
theorem findIndexById_eq_none_of_no_id {id : String} {l : List Post}
    (h : ∀ q ∈ l, q.id ≠ id) : findIndexById id l = none := by
  induction l with
  | nil => rfl
  | cons q rest ih =>
    have hq : q.id ≠ id := h q (List.mem_cons_self q rest)
    have hr : findIndexById id rest = none :=
      ih (fun r hrr => h r (List.mem_cons_of_mem q hrr))
    simp [findIndexById, hq, hr]

/-- With pairwise-distinct ids, erasing the found index removes the only
post carrying the id. -/
theorem eraseIdx_no_id {id : String} {l : List Post} {i : Nat} {p : Post}
    (huniq : l.Pairwise (fun a b => a.id ≠ b.id))
    (h : findIndexById id l = some (i, p)) :
    ∀ q ∈ l.eraseIdx i, q.id ≠ id := by
  induction l generalizing i with
  | nil => simp [findIndexById] at h
  | cons r rest ih =>
    rcases List.pairwise_cons.mp huniq with ⟨hr, hrest⟩
    by_cases hq : r.id = id
    · simp only [findIndexById, if_pos hq, Option.some.injEq, Prod.mk.injEq] at h
      obtain ⟨h1, _⟩ := h
      subst h1
      rw [List.eraseIdx_cons_zero]
      intro q hqmem
      rw [← hq]
      exact (hr q hqmem).symm
    · simp only [findIndexById, if_neg hq] at h
      cases hfi : findIndexById id rest with
      | none => rw [hfi] at h; simp at h
      | some ip =>
        obtain ⟨j, p2⟩ := ip
        rw [hfi] at h
        simp only [Option.map_some', Option.some.injEq, Prod.mk.injEq] at h
        obtain ⟨h1, h2⟩ := h
        subst h1
        subst h2
        rw [List.eraseIdx_cons_succ]
        intro q hqmem
        rcases List.mem_cons.mp hqmem with h1 | h2
        · rw [h1]; exact hq
        · exact ih hrest hfi q h2

/-- C8 helper: every branch of the blog handler either answers with the
full CORS header set or is the HTML home page. -/
theorem blogHeadersCases (now freshId : String) (posts : List Post) (req : Request) :
    (handleBlogRequest now freshId posts req).1.body = some RespBody.homePage ∨
    (handleBlogRequest now freshId posts req).1.headers = corsHeaders := by
  unfold handleBlogRequest
  dsimp only
  repeat' split
  all_goals simp

/-! ## Claim theorems -/

/-- C8: any request with method `OPTIONS`, whatever its path and body,
short-circuits to a 200 response with empty body and the four CORS
headers, and the post store is untouched. -/
theorem options_short_circuits (now freshId : String) (posts : List Post)
    (path : String) (body : Option JsValue) :
    handleBlogRequest now freshId posts ⟨.OPTIONS, path, body⟩ =
      (⟨200, none, corsHeaders⟩, posts) ∧
    ("content-type", "application/json") ∈ corsHeaders ∧
    ("Access-Control-Allow-Origin", "*") ∈ corsHeaders ∧
    ("Access-Control-Allow-Methods", "GET, POST, PUT, DELETE, OPTIONS") ∈ corsHeaders ∧
    ("Access-Control-Allow-Headers", "Content-Type") ∈ corsHeaders := by
  refine ⟨?_, by decide, by decide, by decide, by decide⟩
  simp [handleBlogRequest]

/-- C4: a create request whose body is unparseable, or parses but has a
missing or empty `title` or `content`, is answered 400
`Title and content are required` and leaves the store exactly as it was. -/
theorem create_invalid_rejected (now freshId : String) (posts : List Post)
    (reqBody : Option JsValue)
    (h : reqBody = none ∨ ∃ b, reqBody = some b ∧
        (b.getField "title" = none ∨ b.getField "title" = some (.vStr "") ∨
         b.getField "content" = none ∨ b.getField "content" = some (.vStr ""))) :
    handleBlogRequest now freshId posts ⟨.POST, "/api/posts", reqBody⟩ =
      (⟨400, some (.errorBody "Title and content are required"), corsHeaders⟩, posts) := by
  rcases h with h | ⟨b, hb, hfield⟩
  · subst h
    simp [handleBlogRequest, parseJsonBody, JsValue.truthy]
  · subst hb
    rcases hfield with h | h | h | h <;>
      simp [handleBlogRequest, parseJsonBody, optTruthy, h, JsValue.truthy]

/-- C4 witness at a concrete input: empty title. -/
theorem create_invalid_rejected_witness :
    handleBlogRequest "T" "F" seedPosts
        ⟨.POST, "/api/posts", some (.vObj [("title", .vStr ""), ("content", .vStr "c")])⟩ =
      (⟨400, some (.errorBody "Title and content are required"), corsHeaders⟩, seedPosts) :=
  create_invalid_rejected "T" "F" seedPosts
    (some (.vObj [("title", .vStr ""), ("content", .vStr "c")]))
    (Or.inr ⟨_, rfl, Or.inr (Or.inl rfl)⟩)

/-- C1: updating an existing post with body `{author: a}` (`a` non-empty)
returns 200 with, and stores in place, a record whose `author` is `a` and
whose `updatedAt` is the current time, while `id`, `title`, `content` and
`createdAt` are exactly those of the prior record. -/
theorem update_author_merge (now freshId a : String) (posts : List Post)
    (path : String) (i : Nat) (p : Post)
    (hpath : matchesPostIdPath path = true)
    (hfind : findIndexById (extractId path) posts = some (i, p))
    (ha : a ≠ "") :
    handleBlogRequest now freshId posts
        ⟨.PUT, path, some (.vObj [("author", .vStr a)])⟩ =
      (⟨200,
          some (.postBody
            { id := p.id, title := p.title, content := p.content,
              author := .vStr a, createdAt := p.createdAt, updatedAt := some now }),
          corsHeaders⟩,
        posts.set i
          { id := p.id, title := p.title, content := p.content,
            author := .vStr a, createdAt := p.createdAt, updatedAt := some now }) := by
  simp [handleBlogRequest, hpath, hfind, parseJsonBody, JsValue.truthy,
    JsValue.getField, lookupField, jsOr, ha]

/-- C1 witness: updating seed post 1 with `{author: "X"}`. -/
theorem update_author_merge_witness :
    handleBlogRequest "2025-06-01T00:00:00Z" "F" seedPosts
        ⟨.PUT, "/api/posts/1", some (.vObj [("author", .vStr "X")])⟩ =
      (⟨200,
          some (.postBody
            { id := seedPost1.id, title := seedPost1.title, content := seedPost1.content,
              author := .vStr "X", createdAt := seedPost1.createdAt,
              updatedAt := some "2025-06-01T00:00:00Z" }),
          corsHeaders⟩,
        seedPosts.set 0
          { id := seedPost1.id, title := seedPost1.title, content := seedPost1.content,
            author := .vStr "X", createdAt := seedPost1.createdAt,
            updatedAt := some "2025-06-01T00:00:00Z" }) :=
  update_author_merge "2025-06-01T00:00:00Z" "F" "X" seedPosts "/api/posts/1" 0 seedPost1
    (by decide) (by rfl) (by decide)

/-- C2 counterexample: the body `null` parses as JSON (it is not a parse
failure), yet the PUT handler answers 400 `Invalid request body`, because
the handler rejects every falsy parsed body, not only parse failures. -/
theorem update_400_on_parsed_json_null :
    (handleBlogRequest "T" "F" seedPosts ⟨.PUT, "/api/posts/1", some .vNull⟩).1 =
      ⟨400, some (.errorBody "Invalid request body"), corsHeaders⟩ ∧
    ¬((((handleBlogRequest "T" "F" seedPosts
          ⟨.PUT, "/api/posts/1", some .vNull⟩).1.status = 400 ∧
        (handleBlogRequest "T" "F" seedPosts
          ⟨.PUT, "/api/posts/1", some .vNull⟩).1.body =
          some (.errorBody "Invalid request body")) ↔
      some JsValue.vNull = (none : Option JsValue))) := by
  refine ⟨rfl, fun h => ?_⟩
  have h2 := h.mp ⟨rfl, rfl⟩
  simp at h2

/-- C2 amended: for a PUT on an existing id, the answer is 400
`Invalid request body` exactly when the parsed body is falsy (a parse
failure, or the JSON values `null`, `false`, `0`, `""`); every request
whose body parses to a truthy value is answered 200. -/
theorem update_rejects_falsy_body (now freshId : String) (posts : List Post)
    (path : String) (i : Nat) (p : Post) (reqBody : Option JsValue)
    (hpath : matchesPostIdPath path = true)
    (hfind : findIndexById (extractId path) posts = some (i, p)) :
    (((handleBlogRequest now freshId posts ⟨.PUT, path, reqBody⟩).1.status = 400 ∧
      (handleBlogRequest now freshId posts ⟨.PUT, path, reqBody⟩).1.body =
        some (.errorBody "Invalid request body")) ↔
      (parseJsonBody reqBody).truthy = false) ∧
    ((parseJsonBody reqBody).truthy = true →
      (handleBlogRequest now freshId posts ⟨.PUT, path, reqBody⟩).1.status = 200) := by
  cases h : (parseJsonBody reqBody).truthy <;>
    simp [handleBlogRequest, hpath, hfind, h]

/-- C2 amended witness: empty-object body on seed post 1 is truthy, hence
not rejected, and answered 200. -/
theorem update_rejects_falsy_body_witness :
    ((((handleBlogRequest "T" "F" seedPosts
          ⟨.PUT, "/api/posts/1", some (.vObj [])⟩).1.status = 400 ∧
      (handleBlogRequest "T" "F" seedPosts
          ⟨.PUT, "/api/posts/1", some (.vObj [])⟩).1.body =
        some (.errorBody "Invalid request body")) ↔
      (parseJsonBody (some (.vObj []))).truthy = false) ∧
    ((parseJsonBody (some (.vObj []))).truthy = true →
      (handleBlogRequest "T" "F" seedPosts
          ⟨.PUT, "/api/posts/1", some (.vObj [])⟩).1.status = 200)) :=
  update_rejects_falsy_body "T" "F" seedPosts "/api/posts/1" 0 seedPost1
    (some (.vObj [])) (by decide) (by rfl)

/-- C9: creating with a body carrying non-empty `title` and `content` and
no `author` field succeeds with 201, and the created, appended post has
author `"Anonymous"`, `createdAt` the current time, and — the generated
UUID being fresh — a non-empty id distinct from every id in the store. -/
theorem create_defaults_author (now freshId : String) (posts : List Post)
    (b : JsValue) (t c : String)
    (hid : freshId ≠ "")
    (hfresh : ∀ p ∈ posts, p.id ≠ freshId)
    (ht : b.getField "title" = some (.vStr t)) (ht0 : t ≠ "")
    (hc : b.getField "content" = some (.vStr c)) (hc0 : c ≠ "")
    (hauthor : b.getField "author" = none) :
    handleBlogRequest now freshId posts ⟨.POST, "/api/posts", some b⟩ =
      (⟨201, some (.postBody (createPost now freshId b)), corsHeaders⟩,
        posts ++ [createPost now freshId b]) ∧
    (createPost now freshId b).author = .vStr "Anonymous" ∧
    (createPost now freshId b).createdAt = now ∧
    (createPost now freshId b).id = freshId ∧
    freshId ≠ "" ∧
    ∀ p ∈ posts, p.id ≠ (createPost now freshId b).id := by
  have hb : b.truthy = true := truthy_of_getField_some ht
  have h1 : optTruthy (b.getField "title") = true := by
    rw [ht]; simp [optTruthy, JsValue.truthy, ht0]
  have h2 : optTruthy (b.getField "content") = true := by
    rw [hc]; simp [optTruthy, JsValue.truthy, hc0]
  refine ⟨?_, ?_, rfl, rfl, hid, hfresh⟩
  · simp [handleBlogRequest, parseJsonBody, hb, h1, h2]
  · simp [createPost, hauthor, jsOr]

/-- C9 witness: creating `{title: "Hi", content: "World"}` with the fresh
id `"u-1"` on the seed store. -/
theorem create_defaults_author_witness :
    (handleBlogRequest "2025-06-01T00:00:00Z" "u-1" seedPosts
        ⟨.POST, "/api/posts",
          some (.vObj [("title", .vStr "Hi"), ("content", .vStr "World")])⟩ =
      (⟨201,
          some (.postBody (createPost "2025-06-01T00:00:00Z" "u-1"
            (.vObj [("title", .vStr "Hi"), ("content", .vStr "World")]))),
          corsHeaders⟩,
        seedPosts ++ [createPost "2025-06-01T00:00:00Z" "u-1"
          (.vObj [("title", .vStr "Hi"), ("content", .vStr "World")])]) ∧
    (createPost "2025-06-01T00:00:00Z" "u-1"
        (.vObj [("title", .vStr "Hi"), ("content", .vStr "World")])).author =
      .vStr "Anonymous" ∧
    (createPost "2025-06-01T00:00:00Z" "u-1"
        (.vObj [("title", .vStr "Hi"), ("content", .vStr "World")])).createdAt =
      "2025-06-01T00:00:00Z" ∧
    (createPost "2025-06-01T00:00:00Z" "u-1"
        (.vObj [("title", .vStr "Hi"), ("content", .vStr "World")])).id = "u-1" ∧
    "u-1" ≠ "" ∧
    ∀ p ∈ seedPosts, p.id ≠
      (createPost "2025-06-01T00:00:00Z" "u-1"
        (.vObj [("title", .vStr "Hi"), ("content", .vStr "World")])).id) :=
  create_defaults_author "2025-06-01T00:00:00Z" "u-1" seedPosts
    (.vObj [("title", .vStr "Hi"), ("content", .vStr "World")]) "Hi" "World"
    (by decide) (by decide) (by rfl) (by decide) (by rfl) (by decide) (by rfl)

/-- C10: when the body of a successful create supplies `author` as any
falsy JS value (the empty string included), the created post's author is
`"Anonymous"`: the default applies to falsy supplied values, not only to
an omitted field. -/
theorem create_falsy_author_defaults (now freshId : String) (posts : List Post)
    (b : JsValue) (t c : String) (a : JsValue)
    (ht : b.getField "title" = some (.vStr t)) (ht0 : t ≠ "")
    (hc : b.getField "content" = some (.vStr c)) (hc0 : c ≠ "")
    (ha : b.getField "author" = some a) (ha0 : a.truthy = false) :
    handleBlogRequest now freshId posts ⟨.POST, "/api/posts", some b⟩ =
      (⟨201, some (.postBody (createPost now freshId b)), corsHeaders⟩,
        posts ++ [createPost now freshId b]) ∧
    (createPost now freshId b).author = .vStr "Anonymous" := by
  have hb : b.truthy = true := truthy_of_getField_some ht
  have h1 : optTruthy (b.getField "title") = true := by
    rw [ht]; simp [optTruthy, JsValue.truthy, ht0]
  have h2 : optTruthy (b.getField "content") = true := by
    rw [hc]; simp [optTruthy, JsValue.truthy, hc0]
  constructor
  · simp [handleBlogRequest, parseJsonBody, hb, h1, h2]
  · simp [createPost, ha, jsOr, ha0]

/-- C10 witness: `author` supplied as the empty string. -/
theorem create_falsy_author_defaults_witness :
    (handleBlogRequest "T" "u-2" seedPosts
        ⟨.POST, "/api/posts",
          some (.vObj [("title", .vStr "Hi"), ("content", .vStr "World"),
            ("author", .vStr "")])⟩ =
      (⟨201,
          some (.postBody (createPost "T" "u-2"
            (.vObj [("title", .vStr "Hi"), ("content", .vStr "World"),
              ("author", .vStr "")]))),
          corsHeaders⟩,
        seedPosts ++ [createPost "T" "u-2"
          (.vObj [("title", .vStr "Hi"), ("content", .vStr "World"),
            ("author", .vStr "")])]) ∧
    (createPost "T" "u-2"
        (.vObj [("title", .vStr "Hi"), ("content", .vStr "World"),
          ("author", .vStr "")])).author = .vStr "Anonymous") :=
  create_falsy_author_defaults "T" "u-2" seedPosts
    (.vObj [("title", .vStr "Hi"), ("content", .vStr "World"), ("author", .vStr "")])
    "Hi" "World" (.vStr "")
    (by rfl) (by decide) (by rfl) (by decide) (by rfl) (by rfl)

/-- A path matching the id pattern is never the exact list route. -/
theorem matches_ne_api_posts {path : String} (h : matchesPostIdPath path = true) :
    path ≠ "/api/posts" := by
  intro he
  rw [he] at h
  exact absurd h (by decide)

/-- Appending a post with a fresh id: `find?` by that id returns exactly
the appended post. -/
theorem find?_append_fresh {fid : String} {posts : List Post} {q : Post}
    (hfresh : ∀ p ∈ posts, p.id ≠ fid) (hq : q.id = fid) :
    (posts ++ [q]).find? (fun p => p.id = fid) = some q := by
  induction posts with
  | nil => simp [List.find?, hq]
  | cons r rest ih =>
    have hr : r.id ≠ fid := hfresh r (List.mem_cons_self r rest)
    have ih2 := ih (fun p hp => hfresh p (List.mem_cons_of_mem r hp))
    simp [List.find?_cons, hr, ih2]

/-- A valid create appends exactly the created post to the store. -/
theorem create_success_store (now fid : String) (posts : List Post) (b : JsValue)
    (hb : b.truthy = true) (ht : optTruthy (b.getField "title") = true)
    (hc : optTruthy (b.getField "content") = true) :
    handleBlogRequest now fid posts ⟨.POST, "/api/posts", some b⟩ =
      (⟨201, some (.postBody (createPost now fid b)), corsHeaders⟩,
        posts ++ [createPost now fid b]) := by
  simp [handleBlogRequest, parseJsonBody, hb, ht, hc]

/-- Running a sequence of valid creates appends the created posts, in
order, to the store. -/
theorem runCreates_eq (reqs : List (String × String × JsValue)) (store : List Post)
    (hv : ∀ r ∈ reqs, r.2.2.truthy = true ∧
      optTruthy (r.2.2.getField "title") = true ∧
      optTruthy (r.2.2.getField "content") = true) :
    runCreates store reqs = store ++ reqs.map (fun r => createPost r.1 r.2.1 r.2.2) := by
  induction reqs generalizing store with
  | nil => simp [runCreates]
  | cons r rest ih =>
    obtain ⟨hb, ht, hc⟩ := hv r (List.mem_cons_self r rest)
    rw [runCreates, create_success_store r.1 r.2.1 store r.2.2 hb ht hc]
    rw [ih (store ++ [createPost r.1 r.2.1 r.2.2])
      (fun q hq => hv q (List.mem_cons_of_mem r hq))]
    simp

/-- C5: a successful create (201 with the new record, which is appended
to the store) followed by a GET on the returned id answers 200 with the
identical record and leaves the store unchanged. -/
theorem create_then_fetch_roundtrip (now freshId now2 freshId2 : String)
    (posts : List Post) (b : JsValue) (path2 : String)
    (hfresh : ∀ p ∈ posts, p.id ≠ freshId)
    (hb : b.truthy = true)
    (ht : optTruthy (b.getField "title") = true)
    (hc : optTruthy (b.getField "content") = true)
    (hpath : matchesPostIdPath path2 = true)
    (hid : extractId path2 = freshId) :
    handleBlogRequest now freshId posts ⟨.POST, "/api/posts", some b⟩ =
      (⟨201, some (.postBody (createPost now freshId b)), corsHeaders⟩,
        posts ++ [createPost now freshId b]) ∧
    handleBlogRequest now2 freshId2 (posts ++ [createPost now freshId b])
        ⟨.GET, path2, none⟩ =
      (⟨200, some (.postBody (createPost now freshId b)), corsHeaders⟩,
        posts ++ [createPost now freshId b]) := by
  constructor
  · exact create_success_store now freshId posts b hb ht hc
  · have hfind := find?_append_fresh hfresh
      (show (createPost now freshId b).id = freshId from rfl)
    simp [handleBlogRequest, hpath, hid, hfind, matches_ne_api_posts hpath]

/-- C5 witness: create `{title: "Hi", content: "World"}` with fresh id
`"u-1"` on the seed store, then fetch `/api/posts/u-1`. -/
theorem create_then_fetch_roundtrip_witness :
    (handleBlogRequest "T1" "u-1" seedPosts
        ⟨.POST, "/api/posts",
          some (.vObj [("title", .vStr "Hi"), ("content", .vStr "World")])⟩ =
      (⟨201,
          some (.postBody (createPost "T1" "u-1"
            (.vObj [("title", .vStr "Hi"), ("content", .vStr "World")]))),
          corsHeaders⟩,
        seedPosts ++ [createPost "T1" "u-1"
          (.vObj [("title", .vStr "Hi"), ("content", .vStr "World")])]) ∧
    handleBlogRequest "T2" "u-2"
        (seedPosts ++ [createPost "T1" "u-1"
          (.vObj [("title", .vStr "Hi"), ("content", .vStr "World")])])
        ⟨.GET, "/api/posts/u-1", none⟩ =
      (⟨200,
          some (.postBody (createPost "T1" "u-1"
            (.vObj [("title", .vStr "Hi"), ("content", .vStr "World")]))),
          corsHeaders⟩,
        seedPosts ++ [createPost "T1" "u-1"
          (.vObj [("title", .vStr "Hi"), ("content", .vStr "World")])])) :=
  create_then_fetch_roundtrip "T1" "u-1" "T2" "u-2" seedPosts
    (.vObj [("title", .vStr "Hi"), ("content", .vStr "World")]) "/api/posts/u-1"
    (by decide) (by rfl) (by rfl) (by rfl) (by decide) (by decide)

/-- C6: deleting an existing id (ids being pairwise distinct, as the store
invariant guarantees) answers 200 with the removed record; afterwards both
a GET and a second DELETE on that id answer 404 `Post not found` and leave
the store unchanged. -/
theorem delete_then_gone (now fid now2 fid2 now3 fid3 : String) (posts : List Post)
    (path : String) (i : Nat) (p : Post)
    (huniq : posts.Pairwise (fun a b => a.id ≠ b.id))
    (hpath : matchesPostIdPath path = true)
    (hfind : findIndexById (extractId path) posts = some (i, p)) :
    handleBlogRequest now fid posts ⟨.DELETE, path, none⟩ =
      (⟨200, some (.messagePost "Post deleted successfully" p), corsHeaders⟩,
        posts.eraseIdx i) ∧
    handleBlogRequest now2 fid2 (posts.eraseIdx i) ⟨.GET, path, none⟩ =
      (⟨404, some (.errorBody "Post not found"), corsHeaders⟩, posts.eraseIdx i) ∧
    handleBlogRequest now3 fid3 (posts.eraseIdx i) ⟨.DELETE, path, none⟩ =
      (⟨404, some (.errorBody "Post not found"), corsHeaders⟩, posts.eraseIdx i) := by
  have hnone := eraseIdx_no_id huniq hfind
  have h1 := find?_eq_none_of_no_id hnone
  have h2 := findIndexById_eq_none_of_no_id hnone
  have hne := matches_ne_api_posts hpath
  refine ⟨?_, ?_, ?_⟩
  · simp [handleBlogRequest, hpath, hfind]
  · simp [handleBlogRequest, hpath, h1, hne]
  · simp [handleBlogRequest, hpath, h2]

/-- C6 witness: delete seed post 2, then fetch and delete it again. -/
theorem delete_then_gone_witness :
    (handleBlogRequest "T1" "f1" seedPosts ⟨.DELETE, "/api/posts/2", none⟩ =
      (⟨200, some (.messagePost "Post deleted successfully" seedPost2), corsHeaders⟩,
        seedPosts.eraseIdx 1) ∧
    handleBlogRequest "T2" "f2" (seedPosts.eraseIdx 1) ⟨.GET, "/api/posts/2", none⟩ =
      (⟨404, some (.errorBody "Post not found"), corsHeaders⟩, seedPosts.eraseIdx 1) ∧
    handleBlogRequest "T3" "f3" (seedPosts.eraseIdx 1) ⟨.DELETE, "/api/posts/2", none⟩ =
      (⟨404, some (.errorBody "Post not found"), corsHeaders⟩, seedPosts.eraseIdx 1)) :=
  delete_then_gone "T1" "f1" "T2" "f2" "T3" "f3" seedPosts "/api/posts/2" 1 seedPost2
    (by decide) (by decide) (by rfl)

/-- C7: starting from the two seeds, after N valid creates the store —
and the list returned by `GET /api/posts`, which neither reorders nor
mutates it — holds exactly N+2 posts: the seeds first, then each created
post in creation order. -/
theorem list_after_creates (reqs : List (String × String × JsValue)) (now fid : String)
    (hv : ∀ r ∈ reqs, r.2.2.truthy = true ∧
      optTruthy (r.2.2.getField "title") = true ∧
      optTruthy (r.2.2.getField "content") = true) :
    runCreates seedPosts reqs =
      seedPosts ++ reqs.map (fun r => createPost r.1 r.2.1 r.2.2) ∧
    (runCreates seedPosts reqs).length = reqs.length + 2 ∧
    handleBlogRequest now fid (runCreates seedPosts reqs) ⟨.GET, "/api/posts", none⟩ =
      (⟨200, some (.postsBody (runCreates seedPosts reqs)), corsHeaders⟩,
        runCreates seedPosts reqs) := by
  have h := runCreates_eq reqs seedPosts hv
  refine ⟨h, ?_, ?_⟩
  · rw [h]
    simp [seedPosts]
  · simp [handleBlogRequest]

/-- C7 witness: one valid create after the seeds gives a three-post list. -/
theorem list_after_creates_witness :
    (runCreates seedPosts [("T", "u-1", .vObj [("title", .vStr "Hi"), ("content", .vStr "W")])] =
      seedPosts ++
        [("T", "u-1", JsValue.vObj [("title", .vStr "Hi"), ("content", .vStr "W")])].map
          (fun r => createPost r.1 r.2.1 r.2.2) ∧
    (runCreates seedPosts
        [("T", "u-1", .vObj [("title", .vStr "Hi"), ("content", .vStr "W")])]).length =
      [("T", "u-1", JsValue.vObj [("title", .vStr "Hi"), ("content", .vStr "W")])].length + 2 ∧
    handleBlogRequest "T9" "u-9"
        (runCreates seedPosts
          [("T", "u-1", .vObj [("title", .vStr "Hi"), ("content", .vStr "W")])])
        ⟨.GET, "/api/posts", none⟩ =
      (⟨200,
          some (.postsBody (runCreates seedPosts
            [("T", "u-1", .vObj [("title", .vStr "Hi"), ("content", .vStr "W")])])),
          corsHeaders⟩,
        runCreates seedPosts
          [("T", "u-1", .vObj [("title", .vStr "Hi"), ("content", .vStr "W")])])) :=
  list_after_creates [("T", "u-1", .vObj [("title", .vStr "Hi"), ("content", .vStr "W")])]
    "T9" "u-9" (by decide)

/-- C3 counterexample: `GET /data` in `src/main.js` is a JSON response
(its only explicitly set header is `content-type: application/json`), yet
it carries none of the CORS headers. -/
theorem main_data_lacks_cors :
    (handleMainRequest "t" "ts" none "/data").headers =
      [("content-type", "application/json")] ∧
    (handleMainRequest "t" "ts" none "/data").body =
      some (.mainData "This is JSON data from Deno Deploy" "ts" "development") ∧
    ("Access-Control-Allow-Origin", "*") ∉
      (handleMainRequest "t" "ts" none "/data").headers ∧
    ¬(("content-type", "application/json") ∈
        (handleMainRequest "t" "ts" none "/data").headers ∧
      ("Access-Control-Allow-Origin", "*") ∈
        (handleMainRequest "t" "ts" none "/data").headers ∧
      ("Access-Control-Allow-Methods", "GET, POST, PUT, DELETE, OPTIONS") ∈
        (handleMainRequest "t" "ts" none "/data").headers ∧
      ("Access-Control-Allow-Headers", "Content-Type") ∈
        (handleMainRequest "t" "ts" none "/data").headers) := by
  refine ⟨rfl, rfl, by decide, by decide⟩

/-- C3 amended: every JSON response of `blog-api.js` (every route except
the HTML home page) carries all four headers, `corsHeaders` being exactly
that set; the JSON route `/data` of `main.js`, however, sets only
`content-type: application/json`. -/
theorem json_response_headers (now fid : String) (posts : List Post) (req : Request)
    (t ts : String) (env : Option String) :
    ((handleBlogRequest now fid posts req).1.body = some RespBody.homePage ∨
      (handleBlogRequest now fid posts req).1.headers = corsHeaders) ∧
    corsHeaders =
      [("content-type", "application/json"),
       ("Access-Control-Allow-Origin", "*"),
       ("Access-Control-Allow-Methods", "GET, POST, PUT, DELETE, OPTIONS"),
       ("Access-Control-Allow-Headers", "Content-Type")] ∧
    (handleMainRequest t ts env "/data").headers =
      [("content-type", "application/json")] := by
  refine ⟨blogHeadersCases now fid posts req, by decide, ?_⟩
  simp [handleMainRequest]
